import Mathlib

/-
Verification of the RAG HTTP handler in src/functions/main.py.

The handler is embedded shallowly: JSON values, HTTP requests and responses
become Lean structures; the Python dict update used for CORS headers becomes
an explicit association-list update; the fallible body access
(request_json.get on a possibly-None value) becomes an Except computation;
the hosted embedding/LLM/retrieval stack, which the repository consumes as a
black box, is an oracle parameter whose guarantees are modelled from the
specification.
-/

namespace RagSpec

/-- JSON values, as produced by parsing a request body and consumed by
jsonify when serialising a response. -/
inductive Json where
  | null : Json
  | bool : Bool → Json
  | num : Int → Json
  | str : String → Json
  | arr : List Json → Json
  | obj : List (String × Json) → Json

/-- Python exceptions that the embedded handler can raise.  The only
exception arising in the embedded fragment is the AttributeError raised by
calling .get on None (or on a non-dict JSON value). -/
inductive PyError where
  | attributeError : PyError
deriving DecidableEq

/-- An incoming HTTP request: its method, and the result of Flask
request.get_json with silent set to true — none when the body is not
parsable as JSON, otherwise the parsed value. -/
structure Request where
  method : String
  get_json_silent : Option Json

/-- A response body: either raw text (the preflight branch builds the
response from the text value of an empty string) or a JSON document (the
jsonify branches). -/
inductive Body where
  | text : String → Body
  | json : Json → Body

/-- An HTTP response: body, status code, and headers as an ordered
association list mirroring a Python dict with insertion order. -/
structure Response where
  body : Body
  status : Nat
  headers : List (String × String)

/-- The fixed CORS header set defined at module level in main.py
(lines 28-33). -/
def CORS_HEADERS : List (String × String) :=
  [("Access-Control-Allow-Origin", "*"),
   ("Access-Control-Allow-Methods", "GET, POST, OPTIONS"),
   ("Access-Control-Allow-Headers", "Content-Type, Authorization"),
   ("Access-Control-Max-Age", "3600")]

/-- Header lookup: first binding of the key, as in a Python dict read. -/
def getHeader (hs : List (String × String)) (k : String) : Option String :=
  (hs.find? (fun p => p.1 == k)).map (fun p => p.2)

/-- Setting one header with Python dict semantics: replace the value in
place when the key is present, otherwise append the new binding. -/
def setHeader (hs : List (String × String)) (k v : String) :
    List (String × String) :=
  if hs.any (fun p => p.1 == k) then
    hs.map (fun p => if p.1 == k then (k, v) else p)
  else
    hs ++ [(k, v)]

/-- dict.update applied to a header map: set every binding of the update
list in order. -/
def updateHeaders (hs upd : List (String × String)) :
    List (String × String) :=
  upd.foldl (fun acc p => setHeader acc p.1 p.2) hs

/-- create_response from main.py lines 41-48: apply the CORS headers to the
given response with dict.update, leaving body and status untouched. -/
def create_response (response : Response) : Response :=
  { response with headers := updateHeaders response.headers CORS_HEADERS }

/-- flask.jsonify: a JSON response with status 200 and the Content-Type
header set to application/json. -/
def jsonify (j : Json) : Response :=
  { body := Body.json j, status := 200,
    headers := [("Content-Type", "application/json")] }

/-- Returning the tuple of a response and a status code from the handler:
the framework keeps the body and headers and overrides the status. -/
def withStatus (r : Response) (s : Nat) : Response :=
  { r with status := s }

/-- Python truthiness test `not openai_api_key` on the configured key:
true when the key is missing (None) or the empty string. -/
def isBlank : Option String → Bool
  | none => true
  | some s => s == ""

/-- First binding of a key in a parsed JSON object. -/
def lookupKV (kvs : List (String × Json)) (k : String) : Option Json :=
  (kvs.find? (fun p => p.1 == k)).map (fun p => p.2)

/-- dict.get with a default on a parsed JSON object. -/
def dictGetD (kvs : List (String × Json)) (k : String) (dflt : Json) :
    Json :=
  (lookupKV kvs k).getD dflt

/-- The expression request_json.get applied to the result of
get_json with silent set to true: on None — the unparsable-body case — or
on any parsed value that is not an object, Python raises AttributeError;
on an object it is dict.get with the default. -/
def pyGet (d : Option Json) (k : String) (dflt : Json) :
    Except PyError Json :=
  match d with
  | none => Except.error PyError.attributeError
  | some (Json.obj kvs) => Except.ok (dictGetD kvs k dflt)
  | some _ => Except.error PyError.attributeError

/-- The knowledge base literal of main.py lines 75-135, embedded verbatim
(a 947-character string). -/
def knowledge_text : String :=
  "\n    【RAGシステム運用ルール】\n名前:三好 智(みよし あきら)\n性別:男\n年齢:28歳\n性格:怒らず優しく、楽しく、真面目に。\n\n拝見して頂きありがとうございます。\nマンツーマンで依頼に向けて親身になって頑張ります！\nみなさま、よろしくお願いします！\n\nまったり楽しく一緒にゴールに向けて頑張りましょう！\n٩(๑>▽<๑)۶\n\n【フォートナイト分野】\n2019 フォートナイト講師活動開始\n2022 有名チームに所属(NEXUS)\n2024 生徒がランクマッチで世界一位に！(生徒のYoutube登録者11万人↑)\n・有名プロゲーマーを倒したり、プロゲーマーとYoutube共演などなど...\n\n【IT分野】\n〈経歴〉\n2015 中企業の塾講師 (大学中退)\n2017 フリーランスエンジニア\n2019 零細企業のフルスタックエンジニア\n2022 ステップアップ転職、大手企業のフルスタックエンジニア\n2024 大手ITグループの内部部署異動\n2025 同じ会社内のチーム内 異動 アーキテクト専攻へ切り替え予定\n\n【芸術分野】\n・映像制作\n・作曲、作詞\n・AI生成可能\n\n【プログラミング言語・フレームワーク】\nC# 経験年数 : 6年\nC#.NET 経験年数 : 6年\nGoogle Apps Script 経験年数 : 2年\nHTML 経験年数 : 6年\nJava 経験年数 : 2年\nJavaScript 経験年数 : 6年\nPL/SQL 経験年数 : 1年未満\nSQL 経験年数 : 6年\nTypeScript 経験年数 : 2年\nASP.NET 経験年数 : 1年\nNode.js 経験年数 : 2年\nReact 経験年数 : 2年\nUnity 経験年数 : 2年\nVue.js 経験年数 : 2年\nAmazon Web Services 経験年数 : 1年\nMicrosoft SQL Server 経験年数 : 6年\nOracle Database 経験年数 : 1年\nGit 経験年数 : 6年\nGitLab 経験年数 : 1年\nGitHub 経験年数 : 6年\n\n【納品経験】\n・人材系大手企業システム\n・教育系大手企業システム\n・物流系大手企業システム\n    "

/-- The hardcoded fallback question of main.py line 70. -/
def defaultQuestion : String := "Firebase FunctionsのRAGについて教えてください。"

/-- The error message of main.py line 64. -/
def apiKeyErrorMessage : String :=
  "OpenAI API Key (OPENAI_API_KEY) not set in environment."

/-- Recursion worker for fixed-size chunking, structurally recursive on a
fuel argument so that the definition is kernel-computable.  The fuel is
always instantiated with the length of the list, which makes the zero-fuel
case with a nonempty list unreachable: each step drops 500 characters from
a nonempty list, shrinking it by at least one. -/
def chunksOfGo : Nat → List Char → List (List Char)
  | _, [] => []
  | 0, _ :: _ => []
  | n + 1, c :: cs => ((c :: cs).take 500) :: chunksOfGo n ((c :: cs).drop 500)

/-- Fixed-size chunking of a character list: successive pieces of 500
characters, the last piece possibly shorter. -/
def chunksOf (cs : List Char) : List (List Char) :=
  chunksOfGo cs.length cs

/-- Modelled from the spec: the CharacterTextSplitter with chunk size 500
and overlap 0 applied by main.py line 138 is third-party library code whose
implementation is not under src/; the spec describes the resulting chunks as
substrings produced by fixed-size splitting, size 500 characters, no
overlap.  split_text returns those fixed-size pieces in order. -/
def split_text (s : String) : List String :=
  (chunksOf s.data).map String.mk

/-- Modelled from the spec: the hosted embedding service, the in-memory
vector index and the retrieval chain of main.py lines 142-169 are external
collaborators whose implementations are not under src/.  The spec describes
the composite as a black box that, given the query and the indexed chunks,
returns the nearest chunks — a selection from the index, nonempty whenever
the index is — together with a generated answer string. -/
structure RagChain where
  retrieve : Json → List String → List String
  answer : Json → List String → String
  retrieve_count_le : ∀ q docs, (retrieve q docs).length ≤ docs.length
  retrieve_ne_nil : ∀ q docs, docs ≠ [] → retrieve q docs ≠ []

/-- A concrete instance of the retrieval oracle used to evaluate the
handler on closed inputs: retrieval keeps the first four chunks, mirroring
the default top-k of the library retriever, and the answer is a fixed
string. -/
def sampleChain : RagChain where
  retrieve := fun _ docs => docs.take 4
  answer := fun _ _ => "ok"
  retrieve_count_le := by
    intro q docs
    simp only [List.length_take]
    omega
  retrieve_ne_nil := by
    intro q docs h
    cases docs with
    | nil => cases h rfl
    | cons d ds => simp [List.take]

/-- The handler rag_api_handler of main.py lines 53-184.  Parameters: the
configured secret value of OPENAI_API_KEY (none when the secret is absent),
the external RAG stack as an oracle, and the request.  The three return
paths mirror the source: the OPTIONS preflight short-circuit, the blank-key
error tuple with status 500, and the success tuple with status 200; the
body access can raise, in which case the result is an error that propagates
to the hosting platform. -/
def rag_api_handler (key : Option String) (chain : RagChain)
    (request : Request) : Except PyError Response :=
  if request.method == "OPTIONS" then
    Except.ok (create_response { body := Body.text "", status := 204, headers := [] })
  else if isBlank key then
    Except.ok (withStatus
      (create_response (jsonify (Json.obj [("error", Json.str apiKeyErrorMessage)])))
      500)
  else
    match pyGet request.get_json_silent "prompt" (Json.str defaultQuestion) with
    | Except.error e => Except.error e
    | Except.ok user_query =>
      let docs := split_text knowledge_text
      let context := chain.retrieve user_query docs
      let answer := chain.answer user_query context
      Except.ok (withStatus
        (create_response (jsonify (Json.obj
          [("query", user_query),
           ("answer", Json.str answer),
           ("source_documents_count", Json.num context.length),
           ("status", Json.str "success")])))
        200)

/-- The four CORS headers are present with their fixed values. -/
def corsPresent (hs : List (String × String)) : Prop :=
  getHeader hs "Access-Control-Allow-Origin" = some "*" ∧
  getHeader hs "Access-Control-Allow-Methods" = some "GET, POST, OPTIONS" ∧
  getHeader hs "Access-Control-Allow-Headers" = some "Content-Type, Authorization" ∧
  getHeader hs "Access-Control-Max-Age" = some "3600"

/-! ### Header-map lemmas -/

theorem find?_replace_self (hs : List (String × String)) (k v : String)
    (ha : hs.any (fun q => q.1 == k) = true) :
    List.find? (fun q => q.1 == k)
      (hs.map (fun p => if (p.1 == k) = true then (k, v) else p)) = some (k, v) := by
  induction hs with
  | nil => simp at ha
  | cons p hs ih =>
    by_cases hp : (p.1 == k) = true
    · rw [List.map_cons, if_pos hp, List.find?_cons_of_pos _ (by simp)]
    · have ha' : hs.any (fun q => q.1 == k) = true := by
        simpa [List.any_cons, hp] using ha
      rw [List.map_cons, if_neg hp, List.find?_cons_of_neg _ (by simpa using hp)]
      exact ih ha'

theorem find?_replace_other (hs : List (String × String)) (k v k' : String)
    (h : k' ≠ k) :
    List.find? (fun q => q.1 == k')
      (hs.map (fun p => if (p.1 == k) = true then (k, v) else p)) =
    List.find? (fun q => q.1 == k') hs := by
  induction hs with
  | nil => rfl
  | cons p hs ih =>
    by_cases hp : (p.1 == k) = true
    · have hpk : p.1 = k := by simpa using hp
      have h1 : (k == k') = false := beq_eq_false_iff_ne.mpr (fun hh => h hh.symm)
      have h2 : (p.1 == k') = false := by rw [hpk]; exact h1
      rw [List.map_cons, if_pos hp, List.find?_cons_of_neg _ (by simp [h1]),
        List.find?_cons_of_neg _ (by simp [h2])]
      exact ih
    · rw [List.map_cons, if_neg hp]
      by_cases hq : (p.1 == k') = true
      · rw [List.find?_cons_of_pos _ (by simpa using hq),
          List.find?_cons_of_pos _ (by simpa using hq)]
      · rw [List.find?_cons_of_neg _ (by simpa using hq),
          List.find?_cons_of_neg _ (by simpa using hq)]
        exact ih

theorem getHeader_setHeader_self (hs : List (String × String)) (k v : String) :
    getHeader (setHeader hs k v) k = some v := by
  unfold setHeader getHeader
  by_cases ha : hs.any (fun q => q.1 == k) = true
  · rw [if_pos ha, find?_replace_self hs k v ha]
    rfl
  · have ha' : hs.any (fun q => q.1 == k) = false := by
      simpa only [Bool.not_eq_true] using ha
    rw [if_neg ha, List.find?_append, List.find?_eq_none.mpr (List.any_eq_false.mp ha'),
      Option.none_or, List.find?_cons_of_pos _ (by simp)]
    rfl

theorem getHeader_setHeader_other (hs : List (String × String)) (k v k' : String)
    (h : (k' == k) = false) : getHeader (setHeader hs k v) k' = getHeader hs k' := by
  have hne : k' ≠ k := by simpa using h
  unfold setHeader getHeader
  by_cases ha : hs.any (fun q => q.1 == k) = true
  · rw [if_pos ha, find?_replace_other hs k v k' hne]
  · have hkk : (k == k') = false := beq_eq_false_iff_ne.mpr (fun hh => hne hh.symm)
    rw [if_neg ha, List.find?_append, List.find?_cons_of_neg _ (by simp [hkk]),
      List.find?_nil, Option.or_none]

theorem headers_create_response (r : Response) :
    (create_response r).headers =
      setHeader (setHeader (setHeader (setHeader r.headers
        "Access-Control-Allow-Origin" "*")
        "Access-Control-Allow-Methods" "GET, POST, OPTIONS")
        "Access-Control-Allow-Headers" "Content-Type, Authorization")
        "Access-Control-Max-Age" "3600" := rfl

theorem corsPresent_updateHeaders (hs : List (String × String)) :
    corsPresent (updateHeaders hs CORS_HEADERS) := by
  show corsPresent (setHeader (setHeader (setHeader (setHeader hs
    "Access-Control-Allow-Origin" "*")
    "Access-Control-Allow-Methods" "GET, POST, OPTIONS")
    "Access-Control-Allow-Headers" "Content-Type, Authorization")
    "Access-Control-Max-Age" "3600")
  refine ⟨?_, ?_, ?_, ?_⟩
  · rw [getHeader_setHeader_other _ _ _ _ (by decide),
      getHeader_setHeader_other _ _ _ _ (by decide),
      getHeader_setHeader_other _ _ _ _ (by decide),
      getHeader_setHeader_self]
  · rw [getHeader_setHeader_other _ _ _ _ (by decide),
      getHeader_setHeader_other _ _ _ _ (by decide),
      getHeader_setHeader_self]
  · rw [getHeader_setHeader_other _ _ _ _ (by decide),
      getHeader_setHeader_self]
  · rw [getHeader_setHeader_self]

theorem corsPresent_create (r : Response) :
    corsPresent (create_response r).headers := by
  show corsPresent (updateHeaders r.headers CORS_HEADERS)
  exact corsPresent_updateHeaders _

theorem corsPresent_with (r : Response) (s : Nat) :
    corsPresent (withStatus (create_response r) s).headers := by
  show corsPresent (updateHeaders r.headers CORS_HEADERS)
  exact corsPresent_updateHeaders _

/-! ### Chunking lemmas -/

theorem chunksOfGo_nil (n : Nat) : chunksOfGo n [] = [] := by
  cases n <;> rfl

theorem drop_le_of_cons_le {c : Char} {cs : List Char} {n : Nat}
    (h : (c :: cs).length ≤ n + 1) : ((c :: cs).drop 500).length ≤ n := by
  simp only [List.length_drop, List.length_cons] at h ⊢
  omega

theorem chunksOfGo_length (n : Nat) :
    ∀ cs : List Char, cs.length ≤ n →
      (chunksOfGo n cs).length = (cs.length + 499) / 500 := by
  induction n with
  | zero =>
    intro cs h
    rw [List.eq_nil_of_length_eq_zero (Nat.le_zero.mp h), chunksOfGo_nil]
    rfl
  | succ n ih =>
    intro cs h
    cases cs with
    | nil => rw [chunksOfGo_nil]; rfl
    | cons c cs' =>
      show (((c :: cs').take 500) :: chunksOfGo n ((c :: cs').drop 500)).length = _
      rw [List.length_cons, ih _ (drop_le_of_cons_le h)]
      simp only [List.length_drop, List.length_cons]
      omega

theorem chunksOfGo_mem_length (n : Nat) :
    ∀ cs d : List Char, cs.length ≤ n → d ∈ chunksOfGo n cs →
      d.length ≤ 500 := by
  induction n with
  | zero =>
    intro cs d h hd
    rw [List.eq_nil_of_length_eq_zero (Nat.le_zero.mp h), chunksOfGo_nil] at hd
    simp at hd
  | succ n ih =>
    intro cs d h hd
    cases cs with
    | nil => rw [chunksOfGo_nil] at hd; simp at hd
    | cons c cs' =>
      rcases List.mem_cons.mp hd with h1 | h2
      · subst h1
        simp only [List.length_take, List.length_cons]
        omega
      · exact ih _ _ (drop_le_of_cons_le h) h2

theorem chunksOfGo_flatten (n : Nat) :
    ∀ cs : List Char, cs.length ≤ n → (chunksOfGo n cs).flatten = cs := by
  induction n with
  | zero =>
    intro cs h
    rw [List.eq_nil_of_length_eq_zero (Nat.le_zero.mp h), chunksOfGo_nil]
    rfl
  | succ n ih =>
    intro cs h
    cases cs with
    | nil => rw [chunksOfGo_nil]; rfl
    | cons c cs' =>
      show (((c :: cs').take 500) :: chunksOfGo n ((c :: cs').drop 500)).flatten = _
      rw [List.flatten_cons, ih _ (drop_le_of_cons_le h), List.take_append_drop]

theorem chunksOf_length (cs : List Char) :
    (chunksOf cs).length = (cs.length + 499) / 500 :=
  chunksOfGo_length cs.length cs (Nat.le_refl _)

theorem chunksOf_mem_length (cs d : List Char) (h : d ∈ chunksOf cs) :
    d.length ≤ 500 :=
  chunksOfGo_mem_length cs.length cs d (Nat.le_refl _) h

theorem chunksOf_flatten (cs : List Char) : (chunksOf cs).flatten = cs :=
  chunksOfGo_flatten cs.length cs (Nat.le_refl _)

theorem join_map_mk (l : List (List Char)) :
    String.join (l.map String.mk) = String.mk l.flatten := by
  have h : ∀ (l : List (List Char)) (acc : List Char),
      List.foldl (fun r s => r ++ s) (String.mk acc) (l.map String.mk) =
        String.mk (acc ++ l.flatten) := by
    intro l
    induction l with
    | nil => intro acc; simp
    | cons a l ih =>
      intro acc
      simp only [List.map_cons, List.foldl_cons]
      rw [show String.mk acc ++ String.mk a = String.mk (acc ++ a) from rfl, ih,
        List.flatten_cons, List.append_assoc]
  have h0 : ("" : String) = String.mk [] := rfl
  rw [String.join, h0, h]
  rfl

/-- Claim C3: splitting the knowledge text of length L with chunk size 500
and zero overlap yields exactly the rounded-up quotient of L by 500 many
chunks (written (L + 499) / 500 in natural-number division), each chunk has
length at most 500, and the concatenation of all chunks in order
reconstructs the original text. -/
theorem claim_C3_split_text (s : String) :
    (split_text s).length = (s.length + 499) / 500 ∧
    (∀ c ∈ split_text s, c.length ≤ 500) ∧
    String.join (split_text s) = s := by
  refine ⟨?_, ?_, ?_⟩
  · show ((chunksOf s.data).map String.mk).length = _
    rw [List.length_map, chunksOf_length]
    rfl
  · intro c hc
    rcases List.mem_map.mp hc with ⟨d, hd, rfl⟩
    exact chunksOf_mem_length s.data d hd
  · show String.join ((chunksOf s.data).map String.mk) = s
    rw [join_map_mk, chunksOf_flatten]

/-- Witness for claim C3: the theorem applied to the concrete text "ab",
with the chunk-membership hypothesis discharged there. -/
theorem claim_C3_witness :
    ("ab" ∈ split_text "ab") ∧ ("ab" : String).length ≤ 500 :=
  ⟨by decide, (claim_C3_split_text "ab").2.1 "ab" (by decide)⟩

/-! ### Handler branch lemmas -/

/-- The query value extracted from a parsed JSON object body: the value of
the prompt field, or the fallback question when the field is absent. -/
def userQueryOf (kvs : List (String × Json)) : Json :=
  dictGetD kvs "prompt" (Json.str defaultQuestion)

/-- The retrieved context for a parsed body: what the external stack
returns for the extracted query over the chunks of the knowledge text. -/
def contextOf (chain : RagChain) (kvs : List (String × Json)) : List String :=
  chain.retrieve (userQueryOf kvs) (split_text knowledge_text)

/-- The response built by the success branch of the handler. -/
def successResponse (chain : RagChain) (kvs : List (String × Json)) :
    Response :=
  withStatus (create_response (jsonify (Json.obj
    [("query", userQueryOf kvs),
     ("answer", Json.str (chain.answer (userQueryOf kvs) (contextOf chain kvs))),
     ("source_documents_count", Json.num (contextOf chain kvs).length),
     ("status", Json.str "success")]))) 200

theorem handler_success (key : Option String) (chain : RagChain)
    (req : Request) (kvs : List (String × Json))
    (hm : (req.method == "OPTIONS") = false) (hk : isBlank key = false)
    (hb : req.get_json_silent = some (Json.obj kvs)) :
    rag_api_handler key chain req = Except.ok (successResponse chain kvs) := by
  unfold rag_api_handler
  rw [hm, hk, hb]
  simp [pyGet, successResponse, userQueryOf, contextOf]

theorem handler_blank_key (key : Option String) (chain : RagChain)
    (req : Request) (hm : (req.method == "OPTIONS") = false)
    (hk : isBlank key = true) :
    rag_api_handler key chain req = Except.ok (withStatus
      (create_response (jsonify (Json.obj
        [("error", Json.str apiKeyErrorMessage)]))) 500) := by
  unfold rag_api_handler
  rw [hm, hk]
  simp

theorem split_text_knowledge_ne_nil : split_text knowledge_text ≠ [] := by
  have h : knowledge_text.data ≠ [] := by decide
  obtain ⟨c, cs, hcs⟩ := List.exists_cons_of_ne_nil h
  intro hnil
  have : (split_text knowledge_text).length = 0 := by rw [hnil]; rfl
  rw [split_text, List.length_map, chunksOf_length, hcs] at this
  simp only [List.length_cons] at this
  omega

/-! ### Claim theorems -/

/-- Claim C1: for every non-OPTIONS request in which the configured API key
is missing or empty, the handler returns status 500 with a JSON body
carrying an error field, and the fixed CORS headers are present on that
error response. -/
theorem claim_C1_missing_key (key : Option String) (chain : RagChain)
    (req : Request) (hm : req.method ≠ "OPTIONS") (hk : isBlank key = true) :
    ∃ resp, rag_api_handler key chain req = Except.ok resp ∧
      resp.status = 500 ∧
      resp.body = Body.json (Json.obj [("error", Json.str apiKeyErrorMessage)]) ∧
      corsPresent resp.headers :=
  ⟨withStatus (create_response (jsonify (Json.obj
      [("error", Json.str apiKeyErrorMessage)]))) 500,
    handler_blank_key key chain req (beq_eq_false_iff_ne.mpr hm) hk,
    rfl, rfl, corsPresent_with _ _⟩

/-- Witness for claim C1: a POST request with an empty configured key. -/
theorem claim_C1_witness :
    (Request.mk "POST" none).method ≠ "OPTIONS" ∧ isBlank (some "") = true ∧
    ∃ resp, rag_api_handler (some "") sampleChain (Request.mk "POST" none) =
        Except.ok resp ∧
      resp.status = 500 ∧
      resp.body = Body.json (Json.obj [("error", Json.str apiKeyErrorMessage)]) ∧
      corsPresent resp.headers :=
  ⟨by decide, rfl,
    claim_C1_missing_key (some "") sampleChain (Request.mk "POST" none)
      (by decide) rfl⟩

/-- Claim C2 (code bug in the source): on a POST request whose body is not
parsable as JSON, get_json with silent set to true yields None, and the
attribute access request_json.get on line 70 raises AttributeError instead
of proceeding with the fallback question: the handler fails rather than
defaulting, contradicting the stated design of never surfacing a malformed
body as a failure. -/
theorem claim_C2_malformed_body_raises :
    rag_api_handler (some "sk-test") sampleChain (Request.mk "POST" none) =
      Except.error PyError.attributeError := rfl

/-- Claim C4: every response the handler returns — preflight, success, or
error — carries the fixed CORS header set. -/
theorem claim_C4_cors_every_response (key : Option String) (chain : RagChain)
    (req : Request) (resp : Response)
    (h : rag_api_handler key chain req = Except.ok resp) :
    corsPresent resp.headers := by
  unfold rag_api_handler at h
  split at h
  · injection h with h
    subst h
    exact corsPresent_create _
  · split at h
    · injection h with h
      subst h
      exact corsPresent_with _ _
    · split at h
      · exact absurd h (by simp)
      · injection h with h
        subst h
        exact corsPresent_with _ _

/-- Witness for claim C4: the preflight response of a concrete OPTIONS
request. -/
theorem claim_C4_witness :
    corsPresent (create_response
      (Response.mk (Body.text "") 204 [])).headers :=
  claim_C4_cors_every_response none sampleChain (Request.mk "OPTIONS" none)
    _ rfl

/-- Claim C6: for every request with HTTP method OPTIONS, the handler
returns a response with an empty body and status 204, with the CORS
headers present. -/
theorem claim_C6_preflight (key : Option String) (chain : RagChain)
    (b : Option Json) :
    ∃ resp, rag_api_handler key chain (Request.mk "OPTIONS" b) =
        Except.ok resp ∧
      resp.status = 204 ∧ resp.body = Body.text "" ∧
      corsPresent resp.headers :=
  ⟨create_response (Response.mk (Body.text "") 204 []),
    rfl, rfl, rfl, by exact corsPresent_create _⟩

/-- Claim C9: the OPTIONS branch is evaluated before the credential check:
an OPTIONS request receives the 204 no-content response even when the key
is missing or empty, and no credential error is returned for it. -/
theorem claim_C9_preflight_before_key (key : Option String)
    (chain : RagChain) (b : Option Json) (hk : isBlank key = true) :
    ∃ resp, rag_api_handler key chain (Request.mk "OPTIONS" b) =
        Except.ok resp ∧
      resp.status = 204 ∧ resp.body = Body.text "" ∧
      resp.status ≠ 500 ∧
      resp.body ≠ Body.json (Json.obj [("error", Json.str apiKeyErrorMessage)]) :=
  ⟨create_response (Response.mk (Body.text "") 204 []),
    rfl, rfl, rfl, by decide, fun hempty => Body.noConfusion hempty⟩

/-- Witness for claim C9: an OPTIONS request with the key entirely
absent. -/
theorem claim_C9_witness :
    isBlank none = true ∧
    ∃ resp, rag_api_handler none sampleChain (Request.mk "OPTIONS" none) =
        Except.ok resp ∧
      resp.status = 204 ∧ resp.body = Body.text "" ∧
      resp.status ≠ 500 ∧
      resp.body ≠ Body.json (Json.obj [("error", Json.str apiKeyErrorMessage)]) :=
  ⟨rfl, claim_C9_preflight_before_key none sampleChain none rfl⟩

/-- Claim C7: for every request whose JSON body parses to an object lacking
the prompt field, the query field of the success response equals the
hardcoded fallback sentence. -/
theorem claim_C7_default_fallback (key : Option String) (chain : RagChain)
    (req : Request) (kvs : List (String × Json))
    (hm : req.method ≠ "OPTIONS") (hk : isBlank key = false)
    (hb : req.get_json_silent = some (Json.obj kvs))
    (hp : lookupKV kvs "prompt" = none) :
    ∃ (resp : Response) (fields : List (String × Json)),
      rag_api_handler key chain req = Except.ok resp ∧
      resp.status = 200 ∧
      resp.body = Body.json (Json.obj fields) ∧
      lookupKV fields "query" = some (Json.str defaultQuestion) := by
  refine ⟨successResponse chain kvs,
    [("query", userQueryOf kvs),
     ("answer", Json.str (chain.answer (userQueryOf kvs) (contextOf chain kvs))),
     ("source_documents_count", Json.num (contextOf chain kvs).length),
     ("status", Json.str "success")],
    handler_success key chain req kvs (beq_eq_false_iff_ne.mpr hm) hk hb,
    rfl, rfl, ?_⟩
  show some (userQueryOf kvs) = some (Json.str defaultQuestion)
  unfold userQueryOf dictGetD
  rw [hp]
  rfl

/-- Witness for claim C7: a POST request with a parsed empty JSON object
body and a present key. -/
theorem claim_C7_witness :
    (Request.mk "POST" (some (Json.obj []))).method ≠ "OPTIONS" ∧
    isBlank (some "sk-test") = false ∧
    (Request.mk "POST" (some (Json.obj []))).get_json_silent =
      some (Json.obj []) ∧
    lookupKV [] "prompt" = none ∧
    ∃ (resp : Response) (fields : List (String × Json)),
      rag_api_handler (some "sk-test") sampleChain
          (Request.mk "POST" (some (Json.obj []))) = Except.ok resp ∧
      resp.status = 200 ∧
      resp.body = Body.json (Json.obj fields) ∧
      lookupKV fields "query" = some (Json.str defaultQuestion) :=
  ⟨by decide, rfl, rfl, rfl,
    claim_C7_default_fallback (some "sk-test") sampleChain
      (Request.mk "POST" (some (Json.obj []))) [] (by decide) rfl rfl rfl⟩

/-- Claim C8: for every successful request, the source_documents_count
field of the response is a positive integer no greater than the number of
chunks produced by splitting the knowledge text. -/
theorem claim_C8_source_count (key : Option String) (chain : RagChain)
    (req : Request) (kvs : List (String × Json))
    (hm : req.method ≠ "OPTIONS") (hk : isBlank key = false)
    (hb : req.get_json_silent = some (Json.obj kvs)) :
    ∃ (resp : Response) (fields : List (String × Json)) (n : Nat),
      rag_api_handler key chain req = Except.ok resp ∧
      resp.body = Body.json (Json.obj fields) ∧
      lookupKV fields "source_documents_count" = some (Json.num n) ∧
      0 < n ∧ n ≤ (split_text knowledge_text).length := by
  refine ⟨successResponse chain kvs,
    [("query", userQueryOf kvs),
     ("answer", Json.str (chain.answer (userQueryOf kvs) (contextOf chain kvs))),
     ("source_documents_count", Json.num (contextOf chain kvs).length),
     ("status", Json.str "success")],
    (contextOf chain kvs).length,
    handler_success key chain req kvs (beq_eq_false_iff_ne.mpr hm) hk hb,
    rfl, ?_, ?_, ?_⟩
  · simp [lookupKV]
  · exact List.length_pos.mpr
      (chain.retrieve_ne_nil _ _ split_text_knowledge_ne_nil)
  · exact chain.retrieve_count_le _ _

/-- Witness for claim C8: a POST request with a parsed empty JSON object
body and a present key. -/
theorem claim_C8_witness :
    (Request.mk "POST" (some (Json.obj []))).method ≠ "OPTIONS" ∧
    isBlank (some "sk-test") = false ∧
    ∃ (resp : Response) (fields : List (String × Json)) (n : Nat),
      rag_api_handler (some "sk-test") sampleChain
          (Request.mk "POST" (some (Json.obj []))) = Except.ok resp ∧
      resp.body = Body.json (Json.obj fields) ∧
      lookupKV fields "source_documents_count" = some (Json.num n) ∧
      0 < n ∧ n ≤ (split_text knowledge_text).length :=
  ⟨by decide, rfl,
    claim_C8_source_count (some "sk-test") sampleChain
      (Request.mk "POST" (some (Json.obj []))) [] (by decide) rfl rfl⟩

/-- Counterexample to claim C5 as stated: a successful status-200 response
whose query field is not a string.  A POST body parsing to an object whose
prompt field holds the number 5 is passed through unchanged, so the query
field of the success body is the JSON number 5. -/
theorem claim_C5_counterexample :
    ∃ (resp : Response) (fields : List (String × Json)),
      rag_api_handler (some "sk-test") sampleChain
          (Request.mk "POST" (some (Json.obj [("prompt", Json.num 5)]))) =
        Except.ok resp ∧
      resp.status = 200 ∧
      resp.body = Body.json (Json.obj fields) ∧
      lookupKV fields "query" = some (Json.num 5) ∧
      ∀ s, Json.num 5 ≠ Json.str s :=
  ⟨_, _, rfl, rfl, rfl, rfl, fun s h => Json.noConfusion h⟩

/-- Claim C5 (amended): for every successful (non-OPTIONS,
credential-present, object-body) request, the handler returns status 200
with a JSON body containing exactly the fields query, answer (a string),
source_documents_count (an integer) and status equal to the literal
success, where query equals the prompt value extracted from the body — the
fallback sentence when the field is absent, and a string whenever the
supplied prompt value is a string; on the credential failure the body is a
JSON object with an error string field. -/
theorem claim_C5_response_shape (key : Option String) (chain : RagChain)
    (req : Request) (hm : req.method ≠ "OPTIONS") :
    (isBlank key = true → ∃ resp,
      rag_api_handler key chain req = Except.ok resp ∧ resp.status = 500 ∧
      resp.body = Body.json (Json.obj
        [("error", Json.str apiKeyErrorMessage)])) ∧
    (∀ kvs, isBlank key = false →
      req.get_json_silent = some (Json.obj kvs) →
      ∃ (resp : Response) (a : String) (n : Nat),
        rag_api_handler key chain req = Except.ok resp ∧
        resp.status = 200 ∧
        resp.body = Body.json (Json.obj
          [("query", userQueryOf kvs),
           ("answer", Json.str a),
           ("source_documents_count", Json.num n),
           ("status", Json.str "success")]) ∧
        (lookupKV kvs "prompt" = none →
          userQueryOf kvs = Json.str defaultQuestion) ∧
        (∀ s, lookupKV kvs "prompt" = some (Json.str s) →
          userQueryOf kvs = Json.str s)) := by
  constructor
  · intro hk
    exact ⟨withStatus (create_response (jsonify (Json.obj
        [("error", Json.str apiKeyErrorMessage)]))) 500,
      handler_blank_key key chain req (beq_eq_false_iff_ne.mpr hm) hk,
      rfl, rfl⟩
  · intro kvs hk hb
    refine ⟨successResponse chain kvs,
      chain.answer (userQueryOf kvs) (contextOf chain kvs),
      (contextOf chain kvs).length,
      handler_success key chain req kvs (beq_eq_false_iff_ne.mpr hm) hk hb,
      rfl, rfl, ?_, ?_⟩
    · intro hp
      unfold userQueryOf dictGetD
      rw [hp]
      rfl
    · intro s hp
      unfold userQueryOf dictGetD
      rw [hp]
      rfl

/-- Witness for claim C5 (amended): a POST request with a parsed empty
JSON object body, evaluated for both the blank-key and the present-key
sides of the conjunction. -/
theorem claim_C5_witness :
    (Request.mk "POST" (some (Json.obj []))).method ≠ "OPTIONS" ∧
    isBlank (some "") = true ∧ isBlank (some "sk-test") = false ∧
    (∃ resp, rag_api_handler (some "") sampleChain
        (Request.mk "POST" (some (Json.obj []))) = Except.ok resp ∧
      resp.status = 500 ∧
      resp.body = Body.json (Json.obj
        [("error", Json.str apiKeyErrorMessage)])) ∧
    (∃ (resp : Response) (a : String) (n : Nat),
      rag_api_handler (some "sk-test") sampleChain
          (Request.mk "POST" (some (Json.obj []))) = Except.ok resp ∧
      resp.status = 200 ∧
      resp.body = Body.json (Json.obj
        [("query", userQueryOf []),
         ("answer", Json.str a),
         ("source_documents_count", Json.num n),
         ("status", Json.str "success")]) ∧
      (lookupKV [] "prompt" = none →
        userQueryOf [] = Json.str defaultQuestion) ∧
      (∀ s, lookupKV [] "prompt" = some (Json.str s) →
        userQueryOf [] = Json.str s)) :=
  ⟨by decide, rfl, rfl,
    (claim_C5_response_shape (some "") sampleChain
      (Request.mk "POST" (some (Json.obj []))) (by decide)).1 rfl,
    (claim_C5_response_shape (some "sk-test") sampleChain
      (Request.mk "POST" (some (Json.obj []))) (by decide)).2 [] rfl rfl⟩

/-- Claim C10: create_response changes only the four CORS header fields of
the response it is given — the body, the status code and every header
under a different name are unchanged, and the four CORS fields are set to
their fixed values. -/
theorem claim_C10_frame (r : Response) (k : String)
    (h1 : k ≠ "Access-Control-Allow-Origin")
    (h2 : k ≠ "Access-Control-Allow-Methods")
    (h3 : k ≠ "Access-Control-Allow-Headers")
    (h4 : k ≠ "Access-Control-Max-Age") :
    (create_response r).body = r.body ∧
    (create_response r).status = r.status ∧
    getHeader (create_response r).headers k = getHeader r.headers k ∧
    corsPresent (create_response r).headers := by
  refine ⟨rfl, rfl, ?_, corsPresent_create _⟩
  rw [headers_create_response,
    getHeader_setHeader_other _ _ _ _ (beq_eq_false_iff_ne.mpr h4),
    getHeader_setHeader_other _ _ _ _ (beq_eq_false_iff_ne.mpr h3),
    getHeader_setHeader_other _ _ _ _ (beq_eq_false_iff_ne.mpr h2),
    getHeader_setHeader_other _ _ _ _ (beq_eq_false_iff_ne.mpr h1)]

/-- Witness for claim C10: the frame property at a concrete JSON response
and the Content-Type header, which jsonify sets and create_response must
not disturb. -/
theorem claim_C10_witness :
    (("Content-Type" : String) ≠ "Access-Control-Allow-Origin") ∧
    (create_response (jsonify (Json.obj []))).body =
      (jsonify (Json.obj [])).body ∧
    (create_response (jsonify (Json.obj []))).status =
      (jsonify (Json.obj [])).status ∧
    getHeader (create_response (jsonify (Json.obj []))).headers
        "Content-Type" =
      getHeader (jsonify (Json.obj [])).headers "Content-Type" ∧
    corsPresent (create_response (jsonify (Json.obj []))).headers :=
  ⟨by decide,
    claim_C10_frame (jsonify (Json.obj [])) "Content-Type"
      (by decide) (by decide) (by decide) (by decide)⟩

end RagSpec
